import Mathlib

/-!
Verification of `jsonrpcserver/response.py`.

A shallow embedding of the response/error model and serialization code of
the `jsonrpcserver` repository (file `src/jsonrpcserver/response.py`), with
theorems settling the claims of the specification about it.

Modelling conventions:

* A Python/JSON value is an inductive `Value` (null, bool, int, string,
  array, object).  A Python `dict` is an association list
  `List (String × Value)` in insertion order, as Python 3 dicts preserve
  insertion order; `OrderedDict` is the same representation.
* Python truthiness (`if not request_id`, `if self.debug and data`) is
  `Value.truthy`.
* Raising an exception is `Except.error` carrying the message.
* Class-level configuration attributes (`ErrorResponse.debug`) are explicit
  parameters.
* `json.dumps` of a mapping (already key-ordered by `_sort_response`) is a
  deterministic rendering `json_dumps`; the JSON text encoding of the
  Python standard library is assumed faithful, so "the serialized form" of
  a response is the ordered mapping handed to `json.dumps`.
* In-place mutation (the reassignment of the error entry of the response
  dict inside `_sort_response`) is modelled by returning the post-call
  state of the argument dict alongside the result of the function.
-/

namespace JsonRpcServer

/-- A JSON-representable Python value (the repository never manipulates
floats, so numbers are modelled as integers). -/
inductive Value where
  | null : Value
  | bool : Bool → Value
  | int : Int → Value
  | str : String → Value
  | arr : List Value → Value
  | obj : List (String × Value) → Value

/-- Python truthiness of a value: `None`, `False`, `0`, `""` and empty
containers are falsy. -/
def Value.truthy : Value → Bool
  | Value.null => false
  | Value.bool b => b
  | Value.int n => decide (n ≠ 0)
  | Value.str s => decide (s ≠ "")
  | Value.arr [] => false
  | Value.arr (_ :: _) => true
  | Value.obj [] => false
  | Value.obj (_ :: _) => true

/-- Python `d[k]` lookup in a dict (as `in`-test combined with access). -/
def dict_get? (k : String) : List (String × Value) → Option Value
  | [] => none
  | (k', v) :: rest => if k' == k then some v else dict_get? k rest

/-- Python `d[k] = v`: replace the value in place when the key exists
(keeping its position), append at the end otherwise. -/
def dict_set (k : String) (v : Value) : List (String × Value) → List (String × Value)
  | [] => [(k, v)]
  | (k', v') :: rest => if k' == k then (k, v) :: rest else (k', v') :: dict_set k v rest

/-- The keys of a dict, in order. -/
def dict_keys (d : List (String × Value)) : List String := d.map Prod.fst

/-- The list `root_order` of `_sort_response`: jsonrpc, result, error, id. -/
def root_order : List String := ["jsonrpc", "result", "error", "id"]

/-- The list `error_order` of `_sort_response`: code, message, data. -/
def error_order : List String := ["code", "message", "data"]

/-- Python list index `order.index(k)` for keys that occur in the order
list. -/
def key_index (order : List String) (k : String) : Nat := order.indexOf k

/-- Stable insertion of one key-value pair into a list already sorted by
`key_index`: the pair goes after every earlier pair of smaller-or-equal
index, matching the stability of the Python `sorted` builtin. -/
def insert_pair (order : List String) (p : String × Value) :
    List (String × Value) → List (String × Value)
  | [] => [p]
  | q :: qs =>
      if key_index order q.1 ≤ key_index order p.1 then q :: insert_pair order p qs
      else p :: q :: qs

/-- Python `sorted(items, key=lambda k: order.index(k[0]))`: a stable sort
of the dict items by the index of their key in `order`. -/
def sort_pairs (order : List String) : List (String × Value) → List (String × Value)
  | [] => []
  | p :: ps => insert_pair order p (sort_pairs order ps)

/-- The function `_sort_response(response)`.

Returns the sorted `OrderedDict` together with the state of the argument
dict after the call: the function first mutates the error entry of
`response`, replacing it by a sorted `OrderedDict` of the same items, and
then sorts the top level.  Python raises `ValueError` when a key is missing
from its order list (`list.index`) and `AttributeError` when an error entry
is not a dict (`.items()`); both are modelled as `Except.error`. -/
def sort_response (response : List (String × Value)) :
    Except String (List (String × Value) × List (String × Value)) :=
  match dict_get? "error" response with
  | some (Value.obj e) =>
      if e.all (fun p => error_order.contains p.1) then
        let response' := dict_set "error" (Value.obj (sort_pairs error_order e)) response
        if response'.all (fun p => root_order.contains p.1) then
          Except.ok (sort_pairs root_order response', response')
        else Except.error "ValueError"
      else Except.error "ValueError"
  | some _ => Except.error "AttributeError"
  | none =>
      if response.all (fun p => root_order.contains p.1) then
        Except.ok (sort_pairs root_order response, response)
      else Except.error "ValueError"

/-- Render the characters `json.dumps` escapes in a string. -/
def escape_char (c : Char) : String :=
  if c = '"' then "\\\""
  else if c = '\\' then "\\\\"
  else if c = '\n' then "\\n"
  else if c = '\t' then "\\t"
  else if c = '\r' then "\\r"
  else String.singleton c

/-- Escape a string for JSON output. -/
def escape_string (s : String) : String := String.join (s.toList.map escape_char)

/-- Interpose `", "` between rendered elements, as `json.dumps` does. -/
def join_comma : List String → String
  | [] => ""
  | [s] => s
  | s :: rest => s ++ ", " ++ join_comma rest

mutual

/-- The `json.dumps` rendering of a value, keys emitted in mapping order. -/
def json_dumps : Value → String
  | Value.null => "null"
  | Value.bool true => "true"
  | Value.bool false => "false"
  | Value.int n => toString n
  | Value.str s => "\"" ++ escape_string s ++ "\""
  | Value.arr xs => "[" ++ json_dumps_list xs ++ "]"
  | Value.obj kvs => "\x7b" ++ json_dumps_pairs kvs ++ "\x7d"

/-- Render the elements of a JSON array, comma separated. -/
def json_dumps_list : List Value → String
  | [] => ""
  | [v] => json_dumps v
  | v :: rest => json_dumps v ++ ", " ++ json_dumps_list rest

/-- Render the entries of a JSON object, comma separated. -/
def json_dumps_pairs : List (String × Value) → String
  | [] => ""
  | [(k, v)] => "\"" ++ escape_string k ++ "\": " ++ json_dumps v
  | (k, v) :: rest =>
      "\"" ++ escape_string k ++ "\": " ++ json_dumps v ++ ", " ++ json_dumps_pairs rest

end

/-- Modelled from the spec: `status.py` (constant `HTTP_OK`) is not under
`src/`; the spec gives success and error responses a "200-equivalent"
transport hint. -/
def HTTP_OK : Nat := 200

/-- Modelled from the spec: `status.py` (constant `HTTP_NO_CONTENT`) is not
under `src/`; the spec gives notifications a "204-equivalent" transport
hint. -/
def HTTP_NO_CONTENT : Nat := 204

/-- Serialization `NotificationResponse.__str__`: the empty body. -/
def NotificationResponse_str : String := ""

/-- The `NotificationResponse.http_status` attribute. -/
def NotificationResponse_http_status : Nat := HTTP_NO_CONTENT

/-- Constructor `RequestResponse.__init__(self, request_id, result)`:
raises `ValueError` when `not request_id` (Python truthiness), otherwise
builds the dict with entries jsonrpc: "2.0", result, id — in that
insertion order. -/
def RequestResponse_init (request_id result : Value) :
    Except String (List (String × Value)) :=
  if !request_id.truthy then
    Except.error "Requests must have an id, use NotificationResponse instead"
  else
    Except.ok [("jsonrpc", Value.str "2.0"), ("result", result), ("id", request_id)]

/-- Serialization `RequestResponse.__str__`:
`json.dumps(_sort_response(self))`.  Returns the JSON string together with
the state of `self` after the call. -/
def RequestResponse_str (self : List (String × Value)) :
    Except String (String × List (String × Value)) :=
  (sort_response self).map (fun p => (json_dumps (Value.obj p.1), p.2))

/-- An `ErrorResponse` instance: its dict content plus the `http_status`
attribute set by `__init__`. -/
structure ErrorResponse where
  response : List (String × Value)
  http_status : Nat

/-- Constructor `ErrorResponse.__init__(self, http_status, request_id,
code, message, data=None)` with the class attribute `debug` made an
explicit parameter: builds the dict with entries jsonrpc: "2.0",
error (itself a dict with entries code, message), id — in those insertion
orders — and then sets the data entry of the error dict only when
`self.debug and data` holds (Python truthiness of `data`). -/
def ErrorResponse_init (debug : Bool) (http_status : Nat)
    (request_id code message data : Value) : ErrorResponse :=
  let err := [("code", code), ("message", message)]
  let err := if debug && data.truthy then dict_set "data" data err else err
  ⟨[("jsonrpc", Value.str "2.0"), ("error", Value.obj err), ("id", request_id)],
   http_status⟩

/-- Serialization `ErrorResponse.__str__`:
`json.dumps(_sort_response(self))`, returning the JSON string together with
the state of the dict after the call. -/
def ErrorResponse_str (self : ErrorResponse) :
    Except String (String × List (String × Value)) :=
  (sort_response self.response).map (fun p => (json_dumps (Value.obj p.1), p.2))

/-- Modelled from the spec: `exceptions.py` (classes `JsonRpcServerError`
and `ServerError`) is not under `src/`.  An internal failure handed to
`ExceptionResponse` either already carries a recognized ErrorKind with
http status, code, message and optional data
(`isinstance(ex, JsonRpcServerError)` is true), or is an arbitrary failure
known only by its description (`str(ex)`), per spec §4.4. -/
inductive Failure where
  | known : Nat → Int → String → Value → Failure
  | unknown : String → Failure

/-- Modelled from the spec: `exceptions.py` is not under `src/`.  The
fixed default code of `ServerError`: spec §4.1 says the ServerError code
is caller-assignable "defaulting to a fixed value" in the implementation
reserved band, which is -32000. -/
def SERVER_ERROR_CODE : Int := -32000

/-- Modelled from the spec: `exceptions.py` is not under `src/`.  The
value `ServerError(str(ex))`: wraps an unrecognized failure as a
ServerError whose message derives from the description of the failure,
with no data and an internal-error transport hint. -/
def ServerError_of (description : String) : Failure :=
  Failure.known 500 SERVER_ERROR_CODE description Value.null

/-- Reassignment `if not isinstance(ex, JsonRpcServerError):
ex = ServerError(str(ex))`: a recognized protocol-level failure is kept,
anything else is wrapped. -/
def wrap_unknown : Failure → Failure
  | Failure.known hs c m d => Failure.known hs c m d
  | Failure.unknown desc => ServerError_of desc

/-- Constructor `ExceptionResponse.__init__(self, ex, request_id)`: wraps
`ex` if it is not a recognized failure, then delegates to
`ErrorResponse.__init__(ex.http_status, request_id, ex.code, ex.message,
ex.data)`. -/
def ExceptionResponse_init (debug : Bool) (ex : Failure) (request_id : Value) :
    ErrorResponse :=
  match wrap_unknown ex with
  | Failure.known hs c m d =>
      ErrorResponse_init debug hs request_id (Value.int c) (Value.str m) d
  | Failure.unknown desc =>
      -- unreachable: `wrap_unknown` only returns `Failure.known`; the fields
      -- here are those `ServerError_of desc` would carry
      ErrorResponse_init debug 500 request_id (Value.int SERVER_ERROR_CODE)
        (Value.str desc) Value.null

/-- An element of a batch: either one of the dict-backed responses
(`RequestResponse` / `ErrorResponse` content) or a `NotificationResponse`
object, which is not a dict and not JSON serializable. -/
inductive ResponseObj where
  | response : List (String × Value) → ResponseObj
  | notification : ResponseObj

/-- Constructor `BatchResponse(responses)`: `BatchResponse` subclasses
`list` and adds nothing to construction, so it stores exactly the given
sequence. -/
def BatchResponse_init (responses : List ResponseObj) : List ResponseObj :=
  responses

/-- Serialization of one batch element by `json.dumps`: a dict renders in
its insertion order (note: `BatchResponse.__str__` does not call
`_sort_response`), a `NotificationResponse` object raises `TypeError`. -/
def dumps_elem : ResponseObj → Except String String
  | ResponseObj.response d => Except.ok (json_dumps (Value.obj d))
  | ResponseObj.notification =>
      Except.error "TypeError: NotificationResponse is not JSON serializable"

/-- Serialization of the batch elements by `json.dumps`, left to right,
raising at the first element that is not JSON serializable. -/
def dumps_elems : List ResponseObj → Except String (List String)
  | [] => Except.ok []
  | r :: rest =>
      match dumps_elem r with
      | Except.error e => Except.error e
      | Except.ok s =>
          match dumps_elems rest with
          | Except.error e => Except.error e
          | Except.ok ss => Except.ok (s :: ss)

/-- Serialization `BatchResponse.__str__`: `json.dumps(self)` on the
stored list — no per-element filtering, no call to `_sort_response`. -/
def BatchResponse_str (self : List ResponseObj) : Except String String :=
  (dumps_elems self).map (fun ss => "[" ++ join_comma ss ++ "]")

/-! Theorems settling the claims -/

/-- C1 (counterexample).  The claim quantifies over every *non-null* id,
but `RequestResponse.__init__` tests `not request_id`, Python truthiness:
at the non-null id `0` construction raises `ValueError` instead of
producing the success mapping, so nothing is serialized at all. -/
theorem success_serialization_fails_for_zero_id :
    RequestResponse_init (Value.int 0) (Value.int 5) =
      Except.error "Requests must have an id, use NotificationResponse instead" := rfl

/-- C1 (amended).  For every *truthy* request id (non-null and not one of
the Python falsy values: 0, the empty string, false, empty containers) and
every result, `RequestResponse` construction succeeds with exactly the
dict with entries jsonrpc: "2.0", result, id, and serializing
it yields exactly that mapping — the three keys `jsonrpc`, `result`, `id`
in that order and no other keys. -/
theorem success_serialization_truthy_id (request_id result : Value)
    (h : request_id.truthy = true) :
    RequestResponse_init request_id result =
      Except.ok [("jsonrpc", Value.str "2.0"), ("result", result), ("id", request_id)] ∧
    RequestResponse_str
        [("jsonrpc", Value.str "2.0"), ("result", result), ("id", request_id)] =
      Except.ok
        (json_dumps (Value.obj
          [("jsonrpc", Value.str "2.0"), ("result", result), ("id", request_id)]),
         [("jsonrpc", Value.str "2.0"), ("result", result), ("id", request_id)]) := by
  refine ⟨?_, rfl⟩
  simp [RequestResponse_init, h]

/-- C1 (witness): the amended theorem at id `1`, result `5`. -/
theorem success_serialization_truthy_id_witness :
    RequestResponse_init (Value.int 1) (Value.int 5) =
      Except.ok [("jsonrpc", Value.str "2.0"), ("result", Value.int 5),
                 ("id", Value.int 1)] ∧
    RequestResponse_str
        [("jsonrpc", Value.str "2.0"), ("result", Value.int 5), ("id", Value.int 1)] =
      Except.ok
        (json_dumps (Value.obj
          [("jsonrpc", Value.str "2.0"), ("result", Value.int 5), ("id", Value.int 1)]),
         [("jsonrpc", Value.str "2.0"), ("result", Value.int 5), ("id", Value.int 1)]) :=
  success_serialization_truthy_id (Value.int 1) (Value.int 5) rfl

/-- C4.  Constructing a `RequestResponse` with a null id always raises the
construction-precondition `ValueError`, for every result value, rather than
producing a response object. -/
theorem null_id_success_construction_fails (result : Value) :
    RequestResponse_init Value.null result =
      Except.error "Requests must have an id, use NotificationResponse instead" := rfl

/-- C2 (counterexample).  `BatchResponse` subclasses `list` and performs no
filtering: a batch built from 3 responses whose second element is a
`NotificationResponse` has 3 elements — the notification is still a member
— not the 2 elements the claim asserts. -/
theorem batch_keeps_notification_counterexample :
    (BatchResponse_init
        [ResponseObj.response
           [("jsonrpc", Value.str "2.0"), ("result", Value.int 5), ("id", Value.int 1)],
         ResponseObj.notification,
         ResponseObj.response
           [("jsonrpc", Value.str "2.0"), ("result", Value.int 6), ("id", Value.int 3)]]).length
      = 3 ∧
    ResponseObj.notification ∈
      BatchResponse_init
        [ResponseObj.response
           [("jsonrpc", Value.str "2.0"), ("result", Value.int 5), ("id", Value.int 1)],
         ResponseObj.notification,
         ResponseObj.response
           [("jsonrpc", Value.str "2.0"), ("result", Value.int 6), ("id", Value.int 3)]] ∧
    (BatchResponse_init
        [ResponseObj.response
           [("jsonrpc", Value.str "2.0"), ("result", Value.int 5), ("id", Value.int 1)],
         ResponseObj.notification,
         ResponseObj.response
           [("jsonrpc", Value.str "2.0"), ("result", Value.int 6), ("id", Value.int 3)]]).length
      ≠ 2 :=
  ⟨rfl, List.Mem.tail _ (List.Mem.head _), by decide⟩

/-- C2 (amended).  `BatchResponse` construction stores exactly the input
sequence, in the order of the input, with no filtering: `NotificationResponse`
entries included.  (Notification suppression happens in the external
dispatcher before construction, not in `BatchResponse`.) -/
theorem batch_stores_input_exactly (responses : List ResponseObj) :
    BatchResponse_init responses = responses ∧
    (BatchResponse_init responses).length = responses.length ∧
    ∀ r ∈ responses, r ∈ BatchResponse_init responses :=
  ⟨rfl, rfl, fun _ hr => hr⟩

/-- C6.  With the debug flag disabled, the constructed error object is
exactly the two entries code, message — no `data` key — for every
supplied data value, and the serialized (sorted) form is exactly the
mapping `jsonrpc, error, id` with that two-key error object, so the
serialized error never contains a `data` key. -/
theorem debug_off_never_emits_data (http_status : Nat)
    (request_id code message data : Value) :
    dict_get? "error"
        (ErrorResponse_init false http_status request_id code message data).response =
      some (Value.obj [("code", code), ("message", message)]) ∧
    sort_response
        (ErrorResponse_init false http_status request_id code message data).response =
      Except.ok
        ([("jsonrpc", Value.str "2.0"),
          ("error", Value.obj [("code", code), ("message", message)]),
          ("id", request_id)],
         [("jsonrpc", Value.str "2.0"),
          ("error", Value.obj [("code", code), ("message", message)]),
          ("id", request_id)]) :=
  ⟨rfl, rfl⟩

/-- C3 (counterexample).  The claim quantifies over every supplied data
value, but `ErrorResponse.__init__` tests `self.debug and data`, Python
truthiness: with debug enabled and the supplied (non-null) data value `0`,
the error object is built without a `data` key, and the serialized error
object contains no `data` key. -/
theorem debug_on_drops_falsy_data_counterexample :
    dict_get? "error"
        (ErrorResponse_init true 500 (Value.int 1) (Value.int (-32603))
          (Value.str "Internal error") (Value.int 0)).response =
      some (Value.obj [("code", Value.int (-32603)),
                       ("message", Value.str "Internal error")]) ∧
    sort_response
        (ErrorResponse_init true 500 (Value.int 1) (Value.int (-32603))
          (Value.str "Internal error") (Value.int 0)).response =
      Except.ok
        ([("jsonrpc", Value.str "2.0"),
          ("error", Value.obj [("code", Value.int (-32603)),
                               ("message", Value.str "Internal error")]),
          ("id", Value.int 1)],
         [("jsonrpc", Value.str "2.0"),
          ("error", Value.obj [("code", Value.int (-32603)),
                               ("message", Value.str "Internal error")]),
          ("id", Value.int 1)]) :=
  ⟨rfl, rfl⟩

/-- C3 (amended).  With the debug flag enabled and a supplied *truthy*
data value (non-null and not one of the Python falsy values), the error
object is exactly the three entries code, message, data with
`data` equal to the supplied value, and the serialized (sorted) form
carries that error object unchanged. -/
theorem debug_on_truthy_data_included (http_status : Nat)
    (request_id code message data : Value) (h : data.truthy = true) :
    (ErrorResponse_init true http_status request_id code message data).response =
      [("jsonrpc", Value.str "2.0"),
       ("error", Value.obj [("code", code), ("message", message), ("data", data)]),
       ("id", request_id)] ∧
    sort_response
        (ErrorResponse_init true http_status request_id code message data).response =
      Except.ok
        ([("jsonrpc", Value.str "2.0"),
          ("error", Value.obj [("code", code), ("message", message), ("data", data)]),
          ("id", request_id)],
         [("jsonrpc", Value.str "2.0"),
          ("error", Value.obj [("code", code), ("message", message), ("data", data)]),
          ("id", request_id)]) := by
  have h1 : (ErrorResponse_init true http_status request_id code message data).response =
      [("jsonrpc", Value.str "2.0"),
       ("error", Value.obj [("code", code), ("message", message), ("data", data)]),
       ("id", request_id)] := by
    simp [ErrorResponse_init, dict_set, h]
  refine ⟨h1, ?_⟩
  rw [h1]
  exact rfl

/-- C3 (witness): the amended theorem with data `"detail"`. -/
theorem debug_on_truthy_data_included_witness :
    (Value.str "detail").truthy = true ∧
    ((ErrorResponse_init true 500 (Value.int 1) (Value.int (-32603))
        (Value.str "Internal error") (Value.str "detail")).response =
      [("jsonrpc", Value.str "2.0"),
       ("error", Value.obj [("code", Value.int (-32603)),
                            ("message", Value.str "Internal error"),
                            ("data", Value.str "detail")]),
       ("id", Value.int 1)] ∧
    sort_response
        (ErrorResponse_init true 500 (Value.int 1) (Value.int (-32603))
          (Value.str "Internal error") (Value.str "detail")).response =
      Except.ok
        ([("jsonrpc", Value.str "2.0"),
          ("error", Value.obj [("code", Value.int (-32603)),
                               ("message", Value.str "Internal error"),
                               ("data", Value.str "detail")]),
          ("id", Value.int 1)],
         [("jsonrpc", Value.str "2.0"),
          ("error", Value.obj [("code", Value.int (-32603)),
                               ("message", Value.str "Internal error"),
                               ("data", Value.str "detail")]),
          ("id", Value.int 1)])) :=
  ⟨rfl, debug_on_truthy_data_included 500 (Value.int 1) (Value.int (-32603))
    (Value.str "Internal error") (Value.str "detail") rfl⟩

/-- C5.  Serialization of either single-response variant emits the
top-level keys in the fixed relative order `jsonrpc, result, error, id`
(only the keys the variant has: `[jsonrpc, result, id]` for success,
`[jsonrpc, error, id]` for error — each a sublist of the fixed order), and
within the error object the keys in the fixed relative order
`code, message, data` (a sublist of it, with or without `data`). -/
theorem serialized_key_order (request_id result : Value)
    (h : request_id.truthy = true) (debug : Bool) (http_status : Nat)
    (erid code message data : Value) :
    (∀ d, RequestResponse_init request_id result = Except.ok d →
      ∃ s after, sort_response d = Except.ok (s, after) ∧
        dict_keys s = ["jsonrpc", "result", "id"] ∧
        List.Sublist (dict_keys s) root_order) ∧
    (∃ s after e,
      sort_response
          (ErrorResponse_init debug http_status erid code message data).response =
        Except.ok (s, after) ∧
      dict_keys s = ["jsonrpc", "error", "id"] ∧
      List.Sublist (dict_keys s) root_order ∧
      dict_get? "error" s = some (Value.obj e) ∧
      (dict_keys e = ["code", "message"] ∨
       dict_keys e = ["code", "message", "data"]) ∧
      List.Sublist (dict_keys e) error_order) := by
  have sub_success : List.Sublist (["jsonrpc", "result", "id"] : List String)
      root_order := by decide
  have sub_error : List.Sublist (["jsonrpc", "error", "id"] : List String)
      root_order := by decide
  have sub_cm : List.Sublist (["code", "message"] : List String)
      error_order := by decide
  have sub_cmd : List.Sublist (["code", "message", "data"] : List String)
      error_order := by decide
  constructor
  · intro d hd
    have hd' : d = [("jsonrpc", Value.str "2.0"), ("result", result),
        ("id", request_id)] := by
      have : RequestResponse_init request_id result =
          Except.ok [("jsonrpc", Value.str "2.0"), ("result", result),
            ("id", request_id)] := by
        simp [RequestResponse_init, h]
      rw [this] at hd
      exact (Except.ok.inj hd).symm
    subst hd'
    exact ⟨_, _, rfl, rfl, sub_success⟩
  · cases hdd : debug && data.truthy with
    | false =>
        have h1 : (ErrorResponse_init debug http_status erid code message data).response =
            [("jsonrpc", Value.str "2.0"),
             ("error", Value.obj [("code", code), ("message", message)]),
             ("id", erid)] := by
          simp [ErrorResponse_init, hdd]
        rw [h1]
        exact ⟨_, _, [("code", code), ("message", message)], rfl, rfl, sub_error,
          rfl, Or.inl rfl, sub_cm⟩
    | true =>
        have h1 : (ErrorResponse_init debug http_status erid code message data).response =
            [("jsonrpc", Value.str "2.0"),
             ("error", Value.obj [("code", code), ("message", message), ("data", data)]),
             ("id", erid)] := by
          simp [ErrorResponse_init, dict_set, hdd]
        rw [h1]
        exact ⟨_, _, [("code", code), ("message", message), ("data", data)], rfl, rfl,
          sub_error, rfl, Or.inr rfl, sub_cmd⟩

/-- C5 (witness): key order at concrete inputs (success id 7 / error with
debug on and data supplied). -/
theorem serialized_key_order_witness :
    (Value.int 7).truthy = true ∧
    ((∀ d, RequestResponse_init (Value.int 7) (Value.str "ok") = Except.ok d →
      ∃ s after, sort_response d = Except.ok (s, after) ∧
        dict_keys s = ["jsonrpc", "result", "id"] ∧
        List.Sublist (dict_keys s) root_order) ∧
    (∃ s after e,
      sort_response
          (ErrorResponse_init true 500 Value.null (Value.int (-32700))
            (Value.str "Parse error") (Value.str "bad input")).response =
        Except.ok (s, after) ∧
      dict_keys s = ["jsonrpc", "error", "id"] ∧
      List.Sublist (dict_keys s) root_order ∧
      dict_get? "error" s = some (Value.obj e) ∧
      (dict_keys e = ["code", "message"] ∨
       dict_keys e = ["code", "message", "data"]) ∧
      List.Sublist (dict_keys e) error_order)) :=
  ⟨rfl, serialized_key_order (Value.int 7) (Value.str "ok") rfl true 500
    Value.null (Value.int (-32700)) (Value.str "Parse error")
    (Value.str "bad input")⟩

/-- C7.  Round-trip at the wire-mapping level (the JSON text encoding of
the ordered mapping by the standard library is assumed faithful): looking the
fields back up in the serialized (sorted) mapping recovers the same `id`
and `result` for a success response, and the same `id`, `error.code` and
`error.message` for an error response. -/
theorem serialize_parse_roundtrip (request_id result : Value)
    (h : request_id.truthy = true) (debug : Bool) (http_status : Nat)
    (erid code message data : Value) :
    (∀ d, RequestResponse_init request_id result = Except.ok d →
      ∃ s after, sort_response d = Except.ok (s, after) ∧
        dict_get? "id" s = some request_id ∧
        dict_get? "result" s = some result) ∧
    (∃ s after e,
      sort_response
          (ErrorResponse_init debug http_status erid code message data).response =
        Except.ok (s, after) ∧
      dict_get? "id" s = some erid ∧
      dict_get? "error" s = some (Value.obj e) ∧
      dict_get? "code" e = some code ∧
      dict_get? "message" e = some message) := by
  constructor
  · intro d hd
    have hd' : d = [("jsonrpc", Value.str "2.0"), ("result", result),
        ("id", request_id)] := by
      have : RequestResponse_init request_id result =
          Except.ok [("jsonrpc", Value.str "2.0"), ("result", result),
            ("id", request_id)] := by
        simp [RequestResponse_init, h]
      rw [this] at hd
      exact (Except.ok.inj hd).symm
    subst hd'
    exact ⟨_, _, rfl, rfl, rfl⟩
  · cases hdd : debug && data.truthy with
    | false =>
        have h1 : (ErrorResponse_init debug http_status erid code message data).response =
            [("jsonrpc", Value.str "2.0"),
             ("error", Value.obj [("code", code), ("message", message)]),
             ("id", erid)] := by
          simp [ErrorResponse_init, hdd]
        rw [h1]
        exact ⟨_, _, [("code", code), ("message", message)], rfl, rfl, rfl, rfl, rfl⟩
    | true =>
        have h1 : (ErrorResponse_init debug http_status erid code message data).response =
            [("jsonrpc", Value.str "2.0"),
             ("error", Value.obj [("code", code), ("message", message), ("data", data)]),
             ("id", erid)] := by
          simp [ErrorResponse_init, dict_set, hdd]
        rw [h1]
        exact ⟨_, _, [("code", code), ("message", message), ("data", data)], rfl,
          rfl, rfl, rfl, rfl⟩

/-- C7 (witness): the round-trip at concrete inputs. -/
theorem serialize_parse_roundtrip_witness :
    (Value.str "abc").truthy = true ∧
    ((∀ d, RequestResponse_init (Value.str "abc") (Value.int 42) = Except.ok d →
      ∃ s after, sort_response d = Except.ok (s, after) ∧
        dict_get? "id" s = some (Value.str "abc") ∧
        dict_get? "result" s = some (Value.int 42)) ∧
    (∃ s after e,
      sort_response
          (ErrorResponse_init false 404 (Value.int 9) (Value.int (-32601))
            (Value.str "Method not found") Value.null).response =
        Except.ok (s, after) ∧
      dict_get? "id" s = some (Value.int 9) ∧
      dict_get? "error" s = some (Value.obj e) ∧
      dict_get? "code" e = some (Value.int (-32601)) ∧
      dict_get? "message" e = some (Value.str "Method not found"))) :=
  ⟨rfl, serialize_parse_roundtrip (Value.str "abc") (Value.int 42) rfl false 404
    (Value.int 9) (Value.int (-32601)) (Value.str "Method not found") Value.null⟩

/-- C2 (witness): the amended batch theorem at a concrete one-element
input. -/
theorem batch_stores_input_exactly_witness :
    BatchResponse_init [ResponseObj.notification] = [ResponseObj.notification] ∧
    (BatchResponse_init [ResponseObj.notification]).length =
      [ResponseObj.notification].length ∧
    ∀ r ∈ [ResponseObj.notification],
      r ∈ BatchResponse_init [ResponseObj.notification] :=
  batch_stores_input_exactly [ResponseObj.notification]

/-- C8.  `ExceptionResponse`: a recognized protocol-level failure (one
carrying http status, code, message and data) is passed to
`ErrorResponse.__init__` verbatim; any other failure is first wrapped by
`ServerError` with the message derived from the description of the
failure; in
both cases the resulting `ErrorResponse` carries the given request id. -/
theorem exception_mapper_uses_failure_fields (debug : Bool) (request_id : Value) :
    (∀ (http_status : Nat) (code : Int) (message : String) (data : Value),
      ExceptionResponse_init debug (Failure.known http_status code message data)
          request_id =
        ErrorResponse_init debug http_status request_id (Value.int code)
          (Value.str message) data ∧
      dict_get? "id"
          (ExceptionResponse_init debug
            (Failure.known http_status code message data) request_id).response =
        some request_id) ∧
    (∀ description : String,
      wrap_unknown (Failure.unknown description) = ServerError_of description ∧
      ExceptionResponse_init debug (Failure.unknown description) request_id =
        ErrorResponse_init debug 500 request_id (Value.int SERVER_ERROR_CODE)
          (Value.str description) Value.null ∧
      dict_get? "id"
          (ExceptionResponse_init debug (Failure.unknown description)
            request_id).response =
        some request_id) :=
  ⟨fun _ _ _ _ => ⟨rfl, rfl⟩, fun _ => ⟨rfl, rfl, rfl⟩⟩

/-- C9.  Serialization has no observable effect on the response: for each
constructed variant, `__str__` succeeds and the post-call state of the
response dict is the pre-call state itself (the error entry is replaced
by a sorted container of the very same items, which for responses built by
this module is the identical list) — hence a second `__str__` call, being
the same function on the same value, returns the identical string. -/
theorem serialization_has_no_observable_effect (request_id result : Value)
    (h : request_id.truthy = true) (debug : Bool) (http_status : Nat)
    (erid code message data : Value) :
    (∀ d, RequestResponse_init request_id result = Except.ok d →
      ∃ s, RequestResponse_str d = Except.ok (s, d)) ∧
    (∃ s,
      ErrorResponse_str
          (ErrorResponse_init debug http_status erid code message data) =
        Except.ok (s,
          (ErrorResponse_init debug http_status erid code message data).response)) := by
  constructor
  · intro d hd
    have hd' : d = [("jsonrpc", Value.str "2.0"), ("result", result),
        ("id", request_id)] := by
      have : RequestResponse_init request_id result =
          Except.ok [("jsonrpc", Value.str "2.0"), ("result", result),
            ("id", request_id)] := by
        simp [RequestResponse_init, h]
      rw [this] at hd
      exact (Except.ok.inj hd).symm
    subst hd'
    exact ⟨_, rfl⟩
  · cases hdd : debug && data.truthy with
    | false =>
        have h1 : (ErrorResponse_init debug http_status erid code message data).response =
            [("jsonrpc", Value.str "2.0"),
             ("error", Value.obj [("code", code), ("message", message)]),
             ("id", erid)] := by
          simp [ErrorResponse_init, hdd]
        refine ⟨json_dumps (Value.obj
          [("jsonrpc", Value.str "2.0"),
           ("error", Value.obj [("code", code), ("message", message)]),
           ("id", erid)]), ?_⟩
        unfold ErrorResponse_str
        rw [h1]
        exact rfl
    | true =>
        have h1 : (ErrorResponse_init debug http_status erid code message data).response =
            [("jsonrpc", Value.str "2.0"),
             ("error", Value.obj [("code", code), ("message", message), ("data", data)]),
             ("id", erid)] := by
          simp [ErrorResponse_init, dict_set, hdd]
        refine ⟨json_dumps (Value.obj
          [("jsonrpc", Value.str "2.0"),
           ("error", Value.obj [("code", code), ("message", message), ("data", data)]),
           ("id", erid)]), ?_⟩
        unfold ErrorResponse_str
        rw [h1]
        exact rfl

/-- C9 (witness): serialization leaves concrete responses unchanged. -/
theorem serialization_has_no_observable_effect_witness :
    (Value.int 4).truthy = true ∧
    ((∀ d, RequestResponse_init (Value.int 4) (Value.str "done") = Except.ok d →
      ∃ s, RequestResponse_str d = Except.ok (s, d)) ∧
    (∃ s,
      ErrorResponse_str
          (ErrorResponse_init true 400 Value.null (Value.int (-32600))
            (Value.str "Invalid Request") (Value.str "why")) =
        Except.ok (s,
          (ErrorResponse_init true 400 Value.null (Value.int (-32600))
            (Value.str "Invalid Request") (Value.str "why")).response))) :=
  ⟨rfl, serialization_has_no_observable_effect (Value.int 4) (Value.str "done")
    rfl true 400 Value.null (Value.int (-32600)) (Value.str "Invalid Request")
    (Value.str "why")⟩

/-- Auxiliary for C10: a batch containing a `NotificationResponse` fails to
dump, with the `TypeError` of `json.dumps`. -/
theorem dumps_elems_error_of_mem (responses : List ResponseObj)
    (hmem : ResponseObj.notification ∈ responses) :
    dumps_elems responses =
      Except.error "TypeError: NotificationResponse is not JSON serializable" := by
  induction responses with
  | nil => cases hmem
  | cons r rest ih =>
      cases r with
      | notification => rfl
      | response d =>
          have hrest : ResponseObj.notification ∈ rest := by
            cases hmem with
            | tail _ htail => exact htail
          show (match dumps_elems rest with
            | Except.error e => Except.error e
            | Except.ok ss =>
                Except.ok (json_dumps (Value.obj d) :: ss)) = _
          rw [ih hrest]

/-- Auxiliary for C10: a batch with no `NotificationResponse` dumps every
element, in order. -/
theorem dumps_elems_ok_of_not_mem (responses : List ResponseObj)
    (hmem : ResponseObj.notification ∉ responses) :
    ∃ ss, dumps_elems responses = Except.ok ss ∧
      ss.length = responses.length := by
  induction responses with
  | nil => exact ⟨[], rfl, rfl⟩
  | cons r rest ih =>
      cases r with
      | notification => exact absurd (List.Mem.head _) hmem
      | response d =>
          obtain ⟨ss, hss, hlen⟩ := ih (fun hr => hmem (List.Mem.tail _ hr))
          refine ⟨json_dumps (Value.obj d) :: ss, ?_, by simp [hlen]⟩
          show (match dumps_elems rest with
            | Except.error e => Except.error e
            | Except.ok ss =>
                Except.ok (json_dumps (Value.obj d) :: ss)) = _
          rw [hss]

/-- C10.  Serializing a `BatchResponse` succeeds exactly when no element is
a `NotificationResponse`: a batch still containing one raises `TypeError`
(nothing is elided or emitted empty at serialization time), and a batch of
dict-backed responses serializes all of its elements, one rendered entry
per element. -/
theorem batch_serialization_requires_mappings (responses : List ResponseObj) :
    (ResponseObj.notification ∈ responses →
      BatchResponse_str responses =
        Except.error "TypeError: NotificationResponse is not JSON serializable") ∧
    (ResponseObj.notification ∉ responses →
      ∃ ss, dumps_elems responses = Except.ok ss ∧
        ss.length = responses.length ∧
        BatchResponse_str responses = Except.ok ("[" ++ join_comma ss ++ "]")) := by
  constructor
  · intro hmem
    unfold BatchResponse_str
    rw [dumps_elems_error_of_mem responses hmem]
    rfl
  · intro hmem
    obtain ⟨ss, hss, hlen⟩ := dumps_elems_ok_of_not_mem responses hmem
    refine ⟨ss, hss, hlen, ?_⟩
    unfold BatchResponse_str
    rw [hss]
    rfl

/-- C10 (witness): serializing a batch that still holds a notification
raises, at a concrete two-element batch. -/
theorem batch_serialization_requires_mappings_witness :
    BatchResponse_str
        [ResponseObj.response
           [("jsonrpc", Value.str "2.0"), ("result", Value.int 5), ("id", Value.int 1)],
         ResponseObj.notification] =
      Except.error "TypeError: NotificationResponse is not JSON serializable" :=
  (batch_serialization_requires_mappings _).1 (List.Mem.tail _ (List.Mem.head _))

end JsonRpcServer
